import Mathlib

-- Verification development for the table-metrics run/snapshot engine of this
-- repository (src/WORK/Works.py, src/WORK/one.py, src/WORK/two.py,
-- src/google_iternary/one.py, src/google_iternary/two.py,
-- src/NF_DataEngineering/simple_db_connection.py).
--
-- The Python modules are shallowly embedded: every database table becomes a
-- list of rows, every SQL statement becomes a pure function on those lists,
-- transactions become explicit staged-state passing (rollback returns the
-- pre-transaction state), and exceptions become Except values.  JSON values
-- are embedded as an inductive type; the external library functions
-- json.loads and base64.b64decode are abstracted as function parameters,
-- while bytes.decode("utf-8") is modelled concretely (utf8Decode below).
-- The non-transactional run_id sequence is modelled as a counter inside the
-- database state; the claims below each involve a single run, so the fact
-- that a real sequence would not roll back is immaterial to them.
-- String literals from the source keep their text except that single quotes
-- inside Python messages are elided.

set_option linter.unusedVariables false

-- Nested payload shape used by all snapshot writers:
-- Dict[str, Dict[str, int]] built by payload.setdefault(schema, {})[table] = cnt.
abbrev Payload := List (String × List (String × Nat))

-- One row of nms.table_metrics_daily_snapshot (collected_at omitted:
-- no claim mentions timestamps).
structure DailyRow where
  snapshotDate : Nat
  runId : Option Nat
  payload : Payload
deriving DecidableEq

-- One row of nms.table_metrics_run_snapshot.
structure RunSnapRow where
  runId : Nat
  payload : Payload
deriving DecidableEq

-- WHERE guard of the daily-snapshot upsert in one.py and WORK/two.py:
-- `run_id IS NULL OR EXCLUDED.run_id > run_id`, and identically the
-- `where=` clause of Works.py.
def dailyGuard (rid : Nat) : Option Nat → Bool
  | none => true
  | some r0 => decide (r0 < rid)

-- _write_daily_snapshot of src/WORK/one.py (lines 136-153) and of
-- src/WORK/two.py (lines 151-167): INSERT .. ON CONFLICT (snapshot_date)
-- DO UPDATE SET run_id = EXCLUDED.run_id, payload = EXCLUDED.payload
-- WHERE run_id IS NULL OR EXCLUDED.run_id > run_id.
def write_daily_snapshot (rid d : Nat) (p : Payload) : List DailyRow → List DailyRow
  | [] => [⟨d, some rid, p⟩]
  | r :: rs =>
    if r.snapshotDate = d then
      (if dailyGuard rid r.runId then ⟨d, some rid, p⟩ else r) :: rs
    else
      r :: write_daily_snapshot rid d p rs

-- _write_daily_snapshot of src/WORK/Works.py (lines 150-172): same upsert,
-- but the SET clause computes run_id with CASE WHEN run_id IS NULL THEN :rid
-- ELSE greatest(run_id, :rid) END and payload with CASE WHEN (run_id IS NULL
-- OR :rid > run_id) THEN :payload ELSE payload END, under the same WHERE.
def write_daily_snapshot_w (rid d : Nat) (p : Payload) : List DailyRow → List DailyRow
  | [] => [⟨d, some rid, p⟩]
  | r :: rs =>
    if r.snapshotDate = d then
      (if dailyGuard rid r.runId then
         ⟨d,
          (match r.runId with
           | none => some rid
           | some r0 => some (max r0 rid)),
          (if dailyGuard rid r.runId then p else r.payload)⟩
       else r) :: rs
    else
      r :: write_daily_snapshot_w rid d p rs

-- SELECT of the unique daily row of a given date (first match in the list).
def lookupDaily (d : Nat) : List DailyRow → Option DailyRow
  | [] => none
  | r :: rs => if r.snapshotDate = d then some r else lookupDaily d rs

-- _write_run_snapshot of src/WORK/Works.py (142-148) and src/WORK/one.py
-- (122-134): INSERT .. ON CONFLICT (run_id) DO UPDATE SET payload = EXCLUDED.
def write_run_snapshot (rid : Nat) (p : Payload) : List RunSnapRow → List RunSnapRow
  | [] => [⟨rid, p⟩]
  | r :: rs =>
    if r.runId = rid then ⟨rid, p⟩ :: rs
    else r :: write_run_snapshot rid p rs

-- Helper lemmas about the daily-snapshot writers --------------------------

theorem write_daily_works_eq (rid d : Nat) (p : Payload) (tbl : List DailyRow) :
    write_daily_snapshot_w rid d p tbl = write_daily_snapshot rid d p tbl := by
  induction tbl with
  | nil => rfl
  | cons r rs ih =>
    simp only [write_daily_snapshot, write_daily_snapshot_w]
    by_cases hd : r.snapshotDate = d
    · simp only [hd, if_pos rfl]
      cases hr : r.runId with
      | none => simp [dailyGuard]
      | some r0 =>
        by_cases hg : r0 < rid
        · simp [dailyGuard, hg, Nat.max_eq_right (Nat.le_of_lt hg)]
        · simp [dailyGuard, hg]
    · simp [hd, ih]

theorem lookupDaily_write_none (rid d : Nat) (p : Payload) (tbl : List DailyRow)
    (h : lookupDaily d tbl = none) :
    lookupDaily d (write_daily_snapshot rid d p tbl) = some ⟨d, some rid, p⟩ := by
  induction tbl with
  | nil => simp [write_daily_snapshot, lookupDaily]
  | cons r rs ih =>
    by_cases hd : r.snapshotDate = d
    · simp [lookupDaily, hd] at h
    · simp only [lookupDaily, hd, if_neg hd] at h
      simp [write_daily_snapshot, hd, lookupDaily, ih h]

theorem lookupDaily_write_found (rid d : Nat) (p : Payload) (tbl : List DailyRow)
    (row : DailyRow) (h : lookupDaily d tbl = some row)
    (hg : dailyGuard rid row.runId = true) :
    lookupDaily d (write_daily_snapshot rid d p tbl) = some ⟨d, some rid, p⟩ := by
  induction tbl with
  | nil => simp [lookupDaily] at h
  | cons r rs ih =>
    by_cases hd : r.snapshotDate = d
    · simp only [lookupDaily, if_pos hd] at h
      cases h
      simp [write_daily_snapshot, hd, hg, lookupDaily]
    · simp only [lookupDaily, if_neg hd] at h
      simp [write_daily_snapshot, hd, lookupDaily, ih h]

theorem write_daily_noop (rid d : Nat) (p : Payload) (tbl : List DailyRow)
    (r0 : Nat) (q : Payload) (h : lookupDaily d tbl = some ⟨d, some r0, q⟩)
    (hle : rid ≤ r0) :
    write_daily_snapshot rid d p tbl = tbl := by
  induction tbl with
  | nil => simp [lookupDaily] at h
  | cons r rs ih =>
    by_cases hd : r.snapshotDate = d
    · simp only [lookupDaily, if_pos hd] at h
      cases h
      simp [write_daily_snapshot, dailyGuard, Nat.not_lt.mpr hle]
    · simp only [lookupDaily, if_neg hd] at h
      simp [write_daily_snapshot, hd, ih h]

/-- C1: a daily-snapshot write carrying run identifier `rid` replaces the
stored run identifier and payload only if no row exists for the date, or the
stored run identifier is null, or `rid` is strictly greater than the stored
identifier; a write with an equal or smaller identifier leaves the table
entirely unchanged (silent no-op).  The Works.py CASE/greatest form and the
one.py WHERE-guard form of the upsert coincide. -/
theorem daily_snapshot_recency (rid d : Nat) (p : Payload) (tbl : List DailyRow) :
    write_daily_snapshot_w rid d p tbl = write_daily_snapshot rid d p tbl ∧
    (lookupDaily d tbl = none →
      lookupDaily d (write_daily_snapshot rid d p tbl) = some ⟨d, some rid, p⟩) ∧
    (∀ q, lookupDaily d tbl = some ⟨d, none, q⟩ →
      lookupDaily d (write_daily_snapshot rid d p tbl) = some ⟨d, some rid, p⟩) ∧
    (∀ r0 q, lookupDaily d tbl = some ⟨d, some r0, q⟩ →
      (r0 < rid →
        lookupDaily d (write_daily_snapshot rid d p tbl) = some ⟨d, some rid, p⟩) ∧
      (rid ≤ r0 → write_daily_snapshot rid d p tbl = tbl)) := by
  refine ⟨write_daily_works_eq rid d p tbl,
          fun h => lookupDaily_write_none rid d p tbl h,
          fun q h => lookupDaily_write_found rid d p tbl _ h rfl,
          fun r0 q h => ⟨fun hlt => ?_, fun hle => write_daily_noop rid d p tbl r0 q h hle⟩⟩
  exact lookupDaily_write_found rid d p tbl _ h (by simp [dailyGuard, hlt])

theorem daily_snapshot_recency_witness :
    write_daily_snapshot 3 7 [] [⟨7, some 5, [(("app"), [(("t"), 1)])]⟩] =
      [⟨7, some 5, [(("app"), [(("t"), 1)])]⟩] :=
  ((daily_snapshot_recency 3 7 [] [⟨7, some 5, [(("app"), [(("t"), 1)])]⟩]).2.2.2
      5 [(("app"), [(("t"), 1)])] rfl).2 (by decide)

/-- C3: a stored daily-snapshot row whose run identifier is null accepts any
incoming write unconditionally, in both the Works.py and the WORK/two.py
form of the upsert, and the resulting row is the same one obtained when no
row exists for that date at all: the incoming run identifier and payload are
stored regardless of the incoming identifier's value. -/
theorem daily_snapshot_null_unconditional (rid d : Nat) (p : Payload) (tbl : List DailyRow) :
    (∀ q, lookupDaily d tbl = some ⟨d, none, q⟩ →
      lookupDaily d (write_daily_snapshot_w rid d p tbl) = some ⟨d, some rid, p⟩ ∧
      lookupDaily d (write_daily_snapshot rid d p tbl) = some ⟨d, some rid, p⟩) ∧
    (lookupDaily d tbl = none →
      lookupDaily d (write_daily_snapshot_w rid d p tbl) = some ⟨d, some rid, p⟩ ∧
      lookupDaily d (write_daily_snapshot rid d p tbl) = some ⟨d, some rid, p⟩) := by
  rw [write_daily_works_eq]
  exact ⟨fun q h => ⟨lookupDaily_write_found rid d p tbl _ h rfl,
                     lookupDaily_write_found rid d p tbl _ h rfl⟩,
         fun h => ⟨lookupDaily_write_none rid d p tbl h,
                   lookupDaily_write_none rid d p tbl h⟩⟩

theorem daily_snapshot_null_witness :
    lookupDaily 2 (write_daily_snapshot_w 0 2 [] [⟨2, none, [(("s"), [(("t"), 9)])]⟩]) =
      some ⟨2, some 0, []⟩ :=
  ((daily_snapshot_null_unconditional 0 2 [] [⟨2, none, [(("s"), [(("t"), 9)])]⟩]).1
      [(("s"), [(("t"), 9)])] rfl).1

-- Keys reachable after a run-snapshot upsert are the old keys plus rid.
theorem write_run_snapshot_keys (rid : Nat) (p : Payload) (tbl : List RunSnapRow)
    (a : Nat) (h : a ∈ (write_run_snapshot rid p tbl).map RunSnapRow.runId) :
    a = rid ∨ a ∈ tbl.map RunSnapRow.runId := by
  induction tbl with
  | nil => simpa [write_run_snapshot] using h
  | cons r rs ih =>
    by_cases hr : r.runId = rid
    · simp only [write_run_snapshot, if_pos hr] at h
      simp only [List.map_cons, List.mem_cons] at h
      rcases h with h | h
      · exact Or.inl h
      · exact Or.inr (by simp [h])
    · simp only [write_run_snapshot, if_neg hr] at h
      simp only [List.map_cons, List.mem_cons] at h
      rcases h with h | h
      · exact Or.inr (by simp [h])
      · rcases ih h with h | h
        · exact Or.inl h
        · exact Or.inr (by simp [h])

/-- C4: the per-run snapshot write is an insert-or-replace keyed by run
identifier: applying it twice with the same run identifier and payload
leaves the stored table equal to applying it once, and it preserves the
invariant that the table holds at most one row per run identifier. -/
theorem run_snapshot_idempotent_unique (rid : Nat) (p : Payload) (tbl : List RunSnapRow) :
    write_run_snapshot rid p (write_run_snapshot rid p tbl) = write_run_snapshot rid p tbl ∧
    ((tbl.map RunSnapRow.runId).Nodup →
      ((write_run_snapshot rid p tbl).map RunSnapRow.runId).Nodup) := by
  constructor
  · induction tbl with
    | nil => simp [write_run_snapshot]
    | cons r rs ih =>
      by_cases hr : r.runId = rid
      · simp [write_run_snapshot, hr]
      · simp [write_run_snapshot, hr, ih]
  · intro hnd
    induction tbl with
    | nil => simp [write_run_snapshot]
    | cons r rs ih =>
      simp only [List.map_cons, List.nodup_cons] at hnd
      by_cases hr : r.runId = rid
      · simpa [write_run_snapshot, hr, List.nodup_cons, hr ▸ hnd.1] using hnd.2
      · simp only [write_run_snapshot, if_neg hr, List.map_cons]
        refine List.nodup_cons.mpr ⟨fun hmem => ?_, ih hnd.2⟩
        rcases write_run_snapshot_keys rid p rs r.runId hmem with h | h
        · exact hr h
        · exact hnd.1 h

theorem run_snapshot_idempotent_witness :
    ((write_run_snapshot 1 [] [⟨0, [(("a"), [(("b"), 2)])]⟩]).map RunSnapRow.runId).Nodup :=
  (run_snapshot_idempotent_unique 1 [] [⟨0, [(("a"), [(("b"), 2)])]⟩]).2 (by decide)

-- JSON values as delivered by json.loads / CloudEvent payloads ------------

inductive JsonVal where
  | null
  | bool (b : Bool)
  | num (n : Int)
  | str (s : String)
  | arr (xs : List JsonVal)
  | obj (fields : List (String × JsonVal))

-- Python dict .get on a JSON object (first binding of the key).
def dictGet : List (String × JsonVal) → String → Option JsonVal
  | [], _ => none
  | kv :: rest, k => if kv.1 = k then some kv.2 else dictGet rest k

def dictGetD (fs : List (String × JsonVal)) (k : String) (d : JsonVal) : JsonVal :=
  match dictGet fs k with
  | some v => v
  | none => d

-- Python truthiness of a JSON value.
def jsonTruthy : JsonVal → Bool
  | .null => false
  | .bool b => b
  | .num n => !(n == 0)
  | .str s => !(s == "")
  | .arr xs => !xs.isEmpty
  | .obj fs => !fs.isEmpty

-- Python iteration over a JSON value: lists yield items, strings yield
-- one-character strings, dicts yield their keys; other values raise.
def pyIter : JsonVal → Except String (List JsonVal)
  | .arr xs => .ok xs
  | .str s => .ok (s.data.map (fun c => JsonVal.str (String.mk [c])))
  | .obj fs => .ok (fs.map (fun kv => JsonVal.str kv.1))
  | _ => .error ("TypeError: object is not iterable")

-- Rendering used when a Python f-string interpolates a non-string value into
-- an error message (abbreviated for containers; no theorem reaches those).
def jsonRender : JsonVal → String
  | .null => ("None")
  | .bool true => ("True")
  | .bool false => ("False")
  | .num n => toString n
  | .str s => s
  | .arr _ => ("[list]")
  | .obj _ => ("[dict]")

def containsDot (fq : String) : Bool := fq.data.contains ('.')

-- Python fq.split(".", 1) on a string containing a dot.
def pySplit1 (fq : String) : String × String :=
  (String.mk (fq.data.takeWhile (fun c => !(c == '.'))),
   String.mk ((fq.data.dropWhile (fun c => !(c == '.'))).drop 1))

-- Python str(e)[:4000] (slicing by code points).
def truncate4000 (s : String) : String := String.mk (s.data.take 4000)

-- Strict UTF-8 decoding as performed by Python bytes.decode("utf-8"):
-- rejects stray continuation bytes, overlong encodings, surrogates, and
-- code points beyond U+10FFFF.  Fuel is the byte count (each step consumes
-- at least one byte).
def utf8DecodeAux : Nat → List Nat → Option (List Char)
  | _, [] => some []
  | 0, _ :: _ => none
  | fuel + 1, b :: rest =>
    if b < 0x80 then
      (utf8DecodeAux fuel rest).map (fun cs => Char.ofNat b :: cs)
    else if b < 0xC2 then none
    else if b < 0xE0 then
      match rest with
      | c1 :: rest2 =>
        if 0x80 ≤ c1 ∧ c1 < 0xC0 then
          (utf8DecodeAux fuel rest2).map
            (fun cs => Char.ofNat ((b - 0xC0) * 0x40 + (c1 - 0x80)) :: cs)
        else none
      | [] => none
    else if b < 0xF0 then
      match rest with
      | c1 :: c2 :: rest2 =>
        if (0x80 ≤ c1 ∧ c1 < 0xC0) ∧ (0x80 ≤ c2 ∧ c2 < 0xC0) then
          let cp := (b - 0xE0) * 0x1000 + (c1 - 0x80) * 0x40 + (c2 - 0x80)
          if cp < 0x800 ∨ (0xD800 ≤ cp ∧ cp < 0xE000) then none
          else (utf8DecodeAux fuel rest2).map (fun cs => Char.ofNat cp :: cs)
        else none
      | _ => none
    else if b < 0xF5 then
      match rest with
      | c1 :: c2 :: c3 :: rest2 =>
        if (0x80 ≤ c1 ∧ c1 < 0xC0) ∧ (0x80 ≤ c2 ∧ c2 < 0xC0) ∧ (0x80 ≤ c3 ∧ c3 < 0xC0) then
          let cp := (b - 0xF0) * 0x40000 + (c1 - 0x80) * 0x1000 +
                    (c2 - 0x80) * 0x40 + (c3 - 0x80)
          if cp < 0x10000 ∨ 0x110000 ≤ cp then none
          else (utf8DecodeAux fuel rest2).map (fun cs => Char.ofNat cp :: cs)
        else none
      | _ => none
    else none

def utf8Decode (bs : List Nat) : Option String :=
  (utf8DecodeAux bs.length bs).map (fun cs => String.mk cs)

-- The cloud_event.data values distinguished by _parse_event_body.
inductive EventData where
  | dict (fields : List (String × JsonVal))
  | str (s : String)
  | bytes (bs : List Nat)
  | other

-- _parse_event_body of src/WORK/Works.py (77-92), src/WORK/one.py (159-179),
-- src/WORK/two.py (81-96), src/google_iternary/two.py (88-109): identical in
-- all four files.  json.loads and base64.b64decode are abstracted as the
-- parameters loads and b64decode (none = the library call raises); the
-- bytes branch decodes UTF-8 OUTSIDE the try/except, exactly as in the
-- source, so a decoding failure propagates as Except.error.
def parse_event_body (loads : String → Option JsonVal) (b64decode : String → Option String) :
    EventData → Except String JsonVal
  | .dict fs =>
    match dictGet fs ("message") with
    | some (.obj ms) =>
      let b64v := dictGetD ms ("data") (.str (""))
      let b64v := if jsonTruthy b64v then b64v else .str ("")
      if jsonTruthy b64v then
        match b64v with
        | .str s =>
          match b64decode s with
          | none => .error ("binascii.Error: invalid base64")
          | some decoded =>
            if decoded = ("") then .ok (.obj [])
            else
              match loads decoded with
              | some j => .ok j
              | none => .error ("json.JSONDecodeError")
        | _ => .error ("TypeError: b64decode argument")
      else .ok (.obj [])
    | _ => .ok (.obj fs)
  | .str s =>
    match loads s with
    | some j => .ok j
    | none => .ok (.obj [])
  | .bytes bs =>
    match utf8Decode bs with
    | none => .error ("UnicodeDecodeError")
    | some s =>
      match loads s with
      | some j => .ok j
      | none => .ok (.obj [])
  | .other => .ok (.obj [])

-- Validation loop over the "exclude" items of _validate_request (identical
-- in Works.py 94-101, one.py 181-193, two.py 98-105): the first item that is
-- not a string containing a dot raises ValueError naming the item.
def collectExcludes : List JsonVal → Except String (List String)
  | [] => .ok []
  | v :: rest =>
    match v with
    | .str fq =>
      if containsDot fq then
        match collectExcludes rest with
        | .ok out => .ok (fq :: out)
        | .error e => .error e
      else .error (("exclude items must be schema.table: ") ++ fq)
    | other => .error (("exclude items must be schema.table: ") ++ jsonRender other)

-- _validate_request of the three WORK variants: returns (exclude_tables,
-- skip_schemas).  skip_schemas keeps the raw JSON items, as Python does.
def validate_request (body : JsonVal) : Except String (List String × List JsonVal) :=
  match body with
  | .obj fs =>
    let exVal := dictGetD fs ("exclude") (.arr [])
    let exVal := if jsonTruthy exVal then exVal else .arr []
    match pyIter exVal with
    | .error e => .error e
    | .ok items =>
      match collectExcludes items with
      | .error e => .error e
      | .ok excl =>
        let skVal := dictGetD fs ("skipSchemas") (.arr [])
        let skVal := if jsonTruthy skVal then skVal else .arr []
        match pyIter skVal with
        | .error e => .error e
        | .ok skips => .ok (excl, skips)
  | _ => .error ("AttributeError: get on non-dict request body")

/-- C10 counterexample: the payload whose data is the single byte 0xFF is
bytes that are not valid JSON, yet _parse_event_body does not return the
empty mapping: the UTF-8 decode happens outside the try/except and raises,
so parsing is not total on bytes. -/
theorem parse_event_body_bytes_counterexample :
    parse_event_body (fun _ => none) (fun _ => none) (EventData.bytes [255]) =
      .error ("UnicodeDecodeError") := rfl

/-- C10 (amended): for string data, and for bytes data that decodes as
UTF-8, any content on which json.loads fails parses to the empty mapping,
and the empty mapping validates to the default request (no exclusions, no
skipped schemas); bytes that are not valid UTF-8 instead raise
(counterexample above). -/
theorem parse_event_body_garbled_default (loads : String → Option JsonVal)
    (b64decode : String → Option String) (s : String) (bs : List Nat) (s2 : String)
    (hs : loads s = none) (hbs : utf8Decode bs = some s2) (hs2 : loads s2 = none) :
    parse_event_body loads b64decode (EventData.str s) = .ok (.obj []) ∧
    parse_event_body loads b64decode (EventData.bytes bs) = .ok (.obj []) ∧
    validate_request (.obj []) = .ok ([], []) := by
  refine ⟨?_, ?_, rfl⟩
  · simp [parse_event_body, hs]
  · simp [parse_event_body, hbs, hs2]

theorem parse_event_body_garbled_witness :
    parse_event_body (fun _ => none) (fun _ => none) (EventData.str ("not json")) =
      .ok (.obj []) :=
  (parse_event_body_garbled_default (fun _ => none) (fun _ => none) ("not json")
      [97] ("a") rfl rfl rfl).1

-- Database state shared by the WORK variants ------------------------------

-- One row of nms.table_metrics_measurements.
structure MeasRow where
  runId : Nat
  schemaName : String
  tableName : String
  rowCount : Nat
deriving DecidableEq

-- One row of nms.table_metrics_runs (collected_at/snapshot_date defaults
-- omitted; skip_schemas and exclude_tables are JSONB columns).
structure RunRow where
  runId : Nat
  status : String
  errorMessage : Option String
  skipSchemas : JsonVal
  excludeTables : JsonVal

-- The four engine tables plus the run_id sequence.
structure DB where
  nextRunId : Nat
  runs : List RunRow
  meas : List MeasRow
  runSnap : List RunSnapRow
  daily : List DailyRow

-- One row of information_schema.tables as seen by _list_all_tables.
structure CatalogRow where
  schemaName : String
  tableName : String
  tableType : String
deriving DecidableEq

-- External collaborators of one run: the relational catalog and the
-- collector (SELECT COUNT(*)); an .error value is a raised query exception
-- carrying str(e).
structure Env where
  catalog : List CatalogRow
  counts : String → String → Except String Nat

def SYSTEM_SCHEMAS : List String := [("pg_catalog"), ("information_schema"), ("pg_toast")]

-- The literal NOT IN filter inside the SQL of _list_all_tables /
-- list_all_user_tables.
def sqlSystemSchema (s : String) : Bool :=
  s == ("pg_catalog") || s == ("information_schema") || s == ("pg_toast")

-- _list_all_tables (Works.py 103-110, one.py 62-73, two.py 107-114,
-- google_iternary/two.py 40-51) and list_all_user_tables
-- (simple_db_connection.py 131-140): the SQL keeps base tables outside the
-- three system schemas; the Python comprehension then drops the schemas in
-- the passed exclusion set.
def list_all_tables (catalog : List CatalogRow) (excl : String → Bool) : List (String × String) :=
  ((catalog.filter (fun r => r.tableType == ("BASE TABLE") && !(sqlSystemSchema r.schemaName))).map
    (fun r => (r.schemaName, r.tableName))).filter (fun p => !(excl p.1))

-- Membership in set(SYSTEM_SCHEMAS) | set(skip_schemas) for a schema name,
-- where skip_schemas keeps whatever JSON items the caller sent.
def schemaExcluded (skips : List JsonVal) (s : String) : Bool :=
  decide (s ∈ SYSTEM_SCHEMAS) ||
  skips.any (fun v => match v with | .str t => t == s | _ => false)

-- _insert_run_header: RETURNING run_id with the store-assigned identifier.
def insert_run_header (db : DB) (status : String) (skips excl : JsonVal) : Nat × DB :=
  (db.nextRunId,
   { db with nextRunId := db.nextRunId + 1,
             runs := db.runs ++ [⟨db.nextRunId, status, none, skips, excl⟩] })

-- _update_run_status: UPDATE .. SET status, error_message WHERE run_id = rid.
def update_run_status (db : DB) (rid : Nat) (status : String) (err : Option String) : DB :=
  { db with runs := db.runs.map (fun r =>
      if r.runId = rid then { r with status := status, errorMessage := err } else r) }

-- Python dict assignment d[k] = v preserving insertion order.
def assocInsertNat (k : String) (v : Nat) : List (String × Nat) → List (String × Nat)
  | [] => [(k, v)]
  | kv :: rest => if kv.1 = k then (kv.1, v) :: rest else kv :: assocInsertNat k v rest

-- payload.setdefault(schema, dict())[table] = cnt.
def payloadInsert (s t : String) (c : Nat) : Payload → Payload
  | [] => [(s, [(t, c)])]
  | kv :: rest =>
    if kv.1 = s then (kv.1, assocInsertNat t c kv.2) :: rest
    else kv :: payloadInsert s t c rest

-- sum(len(v) for v in payload.values()).
def payloadCount (pl : Payload) : Nat := (pl.map (fun kv => kv.2.length)).sum

-- The sequential measurement loop of main (step 3): accumulates the
-- measurement rows and the nested payload; the first raised CollectionError
-- aborts the loop.
def collect_counts (counts : String → String → Except String Nat) (rid : Nat) :
    List (String × String) → List MeasRow → Payload → Except String (List MeasRow × Payload)
  | [], ms, pl => .ok (ms, pl)
  | (s, t) :: rest, ms, pl =>
    match counts s t with
    | .error e => .error e
    | .ok c => collect_counts counts rid rest (ms ++ [⟨rid, s, t, c⟩]) (payloadInsert s t c pl)

-- Steps 2 of main in the WORK variants: discovery filtered by
-- set(SYSTEM_SCHEMAS) | set(skip_schemas), then the explicit
-- (schema, table) exclude pairs built by fq.split(".", 1).
def resolveTargets (env : Env) (excl : List String) (skips : List JsonVal) : List (String × String) :=
  let pairs := excl.map pySplit1
  (list_all_tables env.catalog (schemaExcluded skips)).filter
    (fun p => !(pairs.any (fun q => q.1 == p.1 && q.2 == p.2)))

def noTablesMsg : String := ("no tables to process after applying exclusions")

-- Steps 2-5 of main inside the work transaction (identical in Works.py
-- 191-211, one.py 221-241, two.py 190-208 up to the daily-snapshot writer
-- used): discovery, counting, measurement insert, both snapshot writes,
-- and the SUCCEEDED status update, all staged on the transaction state.
def run_work (env : Env) (dailyW : Nat → Nat → Payload → List DailyRow → List DailyRow)
    (excl : List String) (skips : List JsonVal) (rid today : Nat) (db : DB) :
    Except String (DB × Payload) :=
  let targets := resolveTargets env excl skips
  if targets.isEmpty then .error noTablesMsg
  else
    match collect_counts env.counts rid targets [] [] with
    | .error e => .error e
    | .ok (ms, pl) =>
      let db1 := { db with meas := db.meas ++ ms }
      let db2 := { db1 with runSnap := write_run_snapshot rid pl db1.runSnap }
      let db3 := { db2 with daily := dailyW rid today pl db2.daily }
      .ok (update_run_status db3 rid ("SUCCEEDED") none, pl)

-- The JSON result returned to the caller.
inductive Result where
  | ok (runId businessDate tablesProcessed : Nat)
  | err (message : String)
deriving DecidableEq

-- body.get(k, []) if isinstance(body, dict) else [] (failure-path audit
-- header fields in one.py 257-265 and two.py 224-228).
def bodyRawField (body : JsonVal) (k : String) : JsonVal :=
  match body with
  | .obj fs => dictGetD fs k (.arr [])
  | _ => .arr []

-- main of src/WORK/Works.py (175-224): header, work and SUCCEEDED update in
-- ONE transaction; any failure rolls everything back and returns the error
-- with no follow-up write.  commitMain = some msg models the final COMMIT
-- raising msg (engine.begin re-raises it, the outer except returns it).
def main_works (env : Env) (commitMain : Option String) (today : Nat)
    (body : JsonVal) (db : DB) : DB × Result :=
  match validate_request body with
  | .error e => (db, .err e)
  | .ok (excl, skips) =>
    let hdr := insert_run_header db ("RUNNING") (.arr skips) (.arr (excl.map JsonVal.str))
    match run_work env write_daily_snapshot_w excl skips hdr.1 today hdr.2 with
    | .error e => (db, .err e)
    | .ok (db2, pl) =>
      match commitMain with
      | none => (db2, .ok hdr.1 today (payloadCount pl))
      | some msg => (db, .err msg)

-- main of src/WORK/one.py (199-268): one db_conn transaction for header and
-- work; db_conn SWALLOWS commit exceptions (commitMain = some msg), so a
-- failed commit still returns the ok result.  On a body failure the
-- transaction rolls back (header included) and a fresh transaction runs
-- UPDATE .. FAILED on the rolled-back run_id, or inserts a FAILED header
-- when validation failed before the header existed.
def main_one (env : Env) (commitMain commitRecovery : Option String) (today : Nat)
    (body : JsonVal) (db : DB) : DB × Result :=
  match validate_request body with
  | .error e =>
    let dbF := (insert_run_header db ("FAILED") (bodyRawField body ("skipSchemas"))
                  (bodyRawField body ("exclude"))).2
    (match commitRecovery with | none => dbF | some _ => db, .err e)
  | .ok (excl, skips) =>
    let hdr := insert_run_header db ("RUNNING") (.arr skips) (.arr (excl.map JsonVal.str))
    match run_work env write_daily_snapshot excl skips hdr.1 today hdr.2 with
    | .ok (db2, pl) =>
      (match commitMain with | none => db2 | some _ => db, .ok hdr.1 today (payloadCount pl))
    | .error e =>
      let dbF := update_run_status db hdr.1 ("FAILED") (some (truncate4000 e))
      (match commitRecovery with | none => dbF | some _ => db, .err e)

-- main of src/WORK/two.py (170-231): the header commits in its own
-- transaction before the work transaction; on a work failure the committed
-- header is updated to FAILED with str(e)[:4000] in a fresh transaction.
def main_two (env : Env) (commitHeader commitWork commitRecovery : Option String)
    (today : Nat) (body : JsonVal) (db : DB) : DB × Result :=
  match validate_request body with
  | .error e =>
    let dbF := (insert_run_header db ("FAILED") (bodyRawField body ("skipSchemas"))
                  (bodyRawField body ("exclude"))).2
    (match commitRecovery with | none => dbF | some _ => db, .err e)
  | .ok (excl, skips) =>
    let hdr := insert_run_header db ("RUNNING") (.arr skips) (.arr (excl.map JsonVal.str))
    match commitHeader with
    | some msg =>
      let dbF := update_run_status db hdr.1 ("FAILED") (some (truncate4000 msg))
      (match commitRecovery with | none => dbF | some _ => db, .err msg)
    | none =>
      match run_work env write_daily_snapshot excl skips hdr.1 today hdr.2 with
      | .ok (db2, pl) =>
        (match commitWork with
         | none => (db2, .ok hdr.1 today (payloadCount pl))
         | some msg =>
           let dbF := update_run_status hdr.2 hdr.1 ("FAILED") (some (truncate4000 msg))
           (match commitRecovery with | none => dbF | some _ => hdr.2, .err msg))
      | .error e =>
        let dbF := update_run_status hdr.2 hdr.1 ("FAILED") (some (truncate4000 e))
        (match commitRecovery with | none => dbF | some _ => hdr.2, .err e)

-- google_iternary variant ------------------------------------------------

-- One row of nms.nms_daily_reporting.
structure GIDailyRow where
  snapshotDate : Nat
  status : String
  payload : List (String × Nat)
  errorMessage : Option String
deriving DecidableEq

-- _upsert_daily of src/google_iternary/two.py (63-84): unconditional
-- insert-or-replace keyed by snapshot_date; this table carries no run
-- identifier at all.
def upsert_daily (d : Nat) (status : String) (pl : List (String × Nat)) (err : Option String) :
    List GIDailyRow → List GIDailyRow
  | [] => [⟨d, status, pl, err⟩]
  | r :: rs =>
    if r.snapshotDate = d then ⟨d, status, pl, err⟩ :: rs
    else r :: upsert_daily d status pl err rs

-- The per-entry loop over "tables" in _validate_request of
-- google_iternary/two.py (139-143) and one.py (158-162).
def collectTargets : List JsonVal → Except String (List (String × String))
  | [] => .ok []
  | v :: rest =>
    match v with
    | .str fq =>
      if containsDot fq then
        match collectTargets rest with
        | .ok out => .ok (pySplit1 fq :: out)
        | .error e => .error e
      else .error (("table must be schema.table: ") ++ fq)
    | other => .error (("table must be schema.table: ") ++ jsonRender other)

-- _validate_request of google_iternary/two.py (112-145): mode whitelist,
-- excludeSchemas set, optional ISO snapshot date (date.fromisoformat is the
-- abstract parameter isoParse), and the qualified-name check in list mode.
def validate_request_gi (isoParse : String → Option Nat) (today : Nat) (body : JsonVal) :
    Except String (String × List (String × String) × List JsonVal × Nat) :=
  match body with
  | .obj fs =>
    match dictGetD fs ("mode") (.str ("all")) with
    | .str m =>
      if m = ("all") ∨ m = ("list") then
        match pyIter (dictGetD fs ("excludeSchemas") (.arr [])) with
        | .error e => .error e
        | .ok exset =>
          let dval := dictGetD fs ("snapshotDate") .null
          match (if jsonTruthy dval then
                   match dval with
                   | .str s =>
                     match isoParse s with
                     | some d => Except.ok d
                     | none => Except.error (("Invalid isoformat string: ") ++ s)
                   | _ => Except.error ("TypeError: fromisoformat argument must be str")
                 else Except.ok today : Except String Nat) with
          | .error e => .error e
          | .ok d =>
            if m = ("list") then
              match dictGet fs ("tables") with
              | some (.arr ts) =>
                if ts.isEmpty then .error ("when mode=list, provide non-empty tables array")
                else
                  match collectTargets ts with
                  | .error e => .error e
                  | .ok tgts => .ok (m, tgts, exset, d)
              | _ => .error ("when mode=list, provide non-empty tables array")
            else .ok (m, [], exset, d)
      else .error ("mode must be all or list")
    | _ => .error ("mode must be all or list")
  | _ => .error ("AttributeError: get on non-dict request body")

inductive GIResult where
  | ok (date tablesProcessed : Nat)
  | err (date : Nat) (message : String)
deriving DecidableEq

-- The counting loop of google_iternary/two.py main (176-179):
-- counts[f-string schema.table] = rc on a flat dict.
def collect_counts_flat (counts : String → String → Except String Nat) :
    List (String × String) → List (String × Nat) → Except String (List (String × Nat))
  | [], acc => .ok acc
  | (s, t) :: rest, acc =>
    match counts s t with
    | .error e => .error e
    | .ok c => collect_counts_flat counts rest (assocInsertNat (s ++ (".") ++ t) c acc)

-- main of src/google_iternary/two.py (149-214): validation failure reaches
-- the outer except before any connection is acquired (store untouched);
-- an inner failure rolls the work back and commits a best-effort FAILED row
-- with str(e)[:4000].  Commits themselves are modelled as succeeding.
def main_gi_two (env : Env) (isoParse : String → Option Nat) (today : Nat)
    (body : JsonVal) (db : List GIDailyRow) : List GIDailyRow × GIResult :=
  match validate_request_gi isoParse today body with
  | .error e => (db, .err today e)
  | .ok (m, listTargets, exset, d) =>
    let targets :=
      if m = ("all") then list_all_tables env.catalog (schemaExcluded exset)
      else listTargets.filter (fun p => !(schemaExcluded exset p.1))
    if targets.isEmpty then
      let e := ("no tables to process after applying excludeSchemas/system filters")
      (upsert_daily d ("FAILED") [] (some (truncate4000 e)) db, .err d e)
    else
      match collect_counts_flat env.counts targets [] with
      | .error e => (upsert_daily d ("FAILED") [] (some (truncate4000 e)) db, .err d e)
      | .ok counts => (upsert_daily d ("SUCCEEDED") counts none db, .ok d counts.length)

-- NF_DataEngineering variant ----------------------------------------------

-- list_from_payload of src/NF_DataEngineering/simple_db_connection.py
-- (142-150): only the caller-supplied exclusion set is applied; the
-- SYSTEM_SCHEMAS constant of that module is never consulted here.
def list_from_payload : List String → List String → Except String (List (String × String))
  | [], _ => .ok []
  | fq :: rest, excl =>
    if containsDot fq then
      match list_from_payload rest excl with
      | .ok out => .ok (if (pySplit1 fq).1 ∈ excl then out else pySplit1 fq :: out)
      | .error e => .error e
    else .error (("Use schema.table format: ") ++ fq)

-- list_all_user_tables of simple_db_connection.py (131-140).
def list_all_user_tables (catalog : List CatalogRow) (excl : List String) : List (String × String) :=
  list_all_tables catalog (fun s => decide (s ∈ excl))

-- Coordinator path lemmas --------------------------------------------------

theorem isEmpty_false_of_ne {α : Type} (l : List α) (h : l ≠ []) : l.isEmpty = false := by
  cases l with
  | nil => exact absurd rfl h
  | cons a as => rfl

theorem runs_map_update_fresh (l : List RunRow) (rid : Nat) (st : String) (err : Option String)
    (h : ∀ r ∈ l, r.runId ≠ rid) :
    l.map (fun r => if r.runId = rid then { r with status := st, errorMessage := err } else r) = l := by
  induction l with
  | nil => rfl
  | cons r rs ih =>
    simp [h r (List.mem_cons_self r rs), ih (fun x hx => h x (List.mem_cons_of_mem r hx))]

theorem update_run_status_fresh (db : DB) (rid : Nat) (st : String) (err : Option String)
    (h : ∀ r ∈ db.runs, r.runId ≠ rid) :
    update_run_status db rid st err = db := by
  cases db with
  | mk n runs meas rsn dl =>
    simp only [update_run_status]
    rw [runs_map_update_fresh _ _ _ _ h]

theorem run_work_err (env : Env) (dailyW : Nat → Nat → Payload → List DailyRow → List DailyRow)
    (excl : List String) (skips : List JsonVal) (rid today : Nat) (db : DB) (e : String)
    (hne : resolveTargets env excl skips ≠ [])
    (hcol : collect_counts env.counts rid (resolveTargets env excl skips) [] [] = .error e) :
    run_work env dailyW excl skips rid today db = .error e := by
  have hE := isEmpty_false_of_ne _ hne
  simp [run_work, hE, hcol]

theorem run_work_ok_eq (env : Env) (dailyW : Nat → Nat → Payload → List DailyRow → List DailyRow)
    (excl : List String) (skips : List JsonVal) (rid today : Nat) (db : DB)
    (ms : List MeasRow) (pl : Payload)
    (hne : resolveTargets env excl skips ≠ [])
    (hcol : collect_counts env.counts rid (resolveTargets env excl skips) [] [] = .ok (ms, pl)) :
    run_work env dailyW excl skips rid today db =
      .ok (update_run_status
            { db with meas := db.meas ++ ms,
                      runSnap := write_run_snapshot rid pl db.runSnap,
                      daily := dailyW rid today pl db.daily }
            rid ("SUCCEEDED") none, pl) := by
  have hE := isEmpty_false_of_ne _ hne
  simp [run_work, hE, hcol]

theorem main_works_collect_failure (env : Env) (today : Nat) (body : JsonVal) (db : DB)
    (excl : List String) (skips : List JsonVal) (e : String)
    (hval : validate_request body = .ok (excl, skips))
    (hne : resolveTargets env excl skips ≠ [])
    (hcol : collect_counts env.counts db.nextRunId (resolveTargets env excl skips) [] [] = .error e) :
    main_works env none today body db = (db, .err e) := by
  have h1 := run_work_err env write_daily_snapshot_w excl skips db.nextRunId today
    { db with nextRunId := db.nextRunId + 1,
              runs := db.runs ++ [⟨db.nextRunId, ("RUNNING"), none, .arr skips,
                                  .arr (excl.map JsonVal.str)⟩] } e hne hcol
  simp [main_works, insert_run_header, hval, h1]

theorem main_one_collect_failure (env : Env) (today : Nat) (body : JsonVal) (db : DB)
    (excl : List String) (skips : List JsonVal) (e : String)
    (hval : validate_request body = .ok (excl, skips))
    (hne : resolveTargets env excl skips ≠ [])
    (hcol : collect_counts env.counts db.nextRunId (resolveTargets env excl skips) [] [] = .error e)
    (hfresh : ∀ r ∈ db.runs, r.runId ≠ db.nextRunId) :
    main_one env none none today body db = (db, .err e) := by
  have h1 := run_work_err env write_daily_snapshot excl skips db.nextRunId today
    { db with nextRunId := db.nextRunId + 1,
              runs := db.runs ++ [⟨db.nextRunId, ("RUNNING"), none, .arr skips,
                                  .arr (excl.map JsonVal.str)⟩] } e hne hcol
  have h2 := update_run_status_fresh db db.nextRunId ("FAILED") (some (truncate4000 e)) hfresh
  simp [main_one, insert_run_header, hval, h1, h2]

theorem main_two_collect_failure (env : Env) (today : Nat) (body : JsonVal) (db : DB)
    (excl : List String) (skips : List JsonVal) (e : String)
    (hval : validate_request body = .ok (excl, skips))
    (hne : resolveTargets env excl skips ≠ [])
    (hcol : collect_counts env.counts db.nextRunId (resolveTargets env excl skips) [] [] = .error e)
    (hfresh : ∀ r ∈ db.runs, r.runId ≠ db.nextRunId) :
    main_two env none none none today body db =
      ({ db with nextRunId := db.nextRunId + 1,
                 runs := db.runs ++ [⟨db.nextRunId, ("FAILED"), some (truncate4000 e),
                                     .arr skips, .arr (excl.map JsonVal.str)⟩] },
       .err e) := by
  have h1 := run_work_err env write_daily_snapshot excl skips db.nextRunId today
    { db with nextRunId := db.nextRunId + 1,
              runs := db.runs ++ [⟨db.nextRunId, ("RUNNING"), none, .arr skips,
                                  .arr (excl.map JsonVal.str)⟩] } e hne hcol
  have h3 : (db.runs ++ [(⟨db.nextRunId, ("RUNNING"), none, .arr skips,
                          .arr (excl.map JsonVal.str)⟩ : RunRow)]).map
      (fun (r : RunRow) => if r.runId = db.nextRunId then
        { r with status := ("FAILED"), errorMessage := some (truncate4000 e) } else r) =
      db.runs ++ [⟨db.nextRunId, ("FAILED"), some (truncate4000 e),
                   .arr skips, .arr (excl.map JsonVal.str)⟩] := by
    rw [List.map_append, runs_map_update_fresh _ _ _ _ hfresh]
    simp
  simp [main_two, insert_run_header, hval, h1, update_run_status, h3]

theorem main_works_success (env : Env) (today : Nat) (body : JsonVal) (db : DB)
    (excl : List String) (skips : List JsonVal) (ms : List MeasRow) (pl : Payload)
    (hval : validate_request body = .ok (excl, skips))
    (hne : resolveTargets env excl skips ≠ [])
    (hcol : collect_counts env.counts db.nextRunId (resolveTargets env excl skips) [] [] = .ok (ms, pl)) :
    main_works env none today body db =
      (update_run_status
        { db with nextRunId := db.nextRunId + 1,
                  runs := db.runs ++ [⟨db.nextRunId, ("RUNNING"), none, .arr skips,
                                      .arr (excl.map JsonVal.str)⟩],
                  meas := db.meas ++ ms,
                  runSnap := write_run_snapshot db.nextRunId pl db.runSnap,
                  daily := write_daily_snapshot_w db.nextRunId today pl db.daily }
        db.nextRunId ("SUCCEEDED") none,
       .ok db.nextRunId today (payloadCount pl)) := by
  have h1 := run_work_ok_eq env write_daily_snapshot_w excl skips db.nextRunId today
    { db with nextRunId := db.nextRunId + 1,
              runs := db.runs ++ [⟨db.nextRunId, ("RUNNING"), none, .arr skips,
                                  .arr (excl.map JsonVal.str)⟩] } ms pl hne hcol
  simp [main_works, insert_run_header, hval, h1]

theorem collect_counts_ok_spec (counts : String → String → Except String Nat) (rid : Nat)
    (ts : List (String × String)) :
    ∀ (acc : List MeasRow) (pl0 : Payload) (ms : List MeasRow) (pl : Payload),
      collect_counts counts rid ts acc pl0 = .ok (ms, pl) →
      ms.map (fun m => (m.schemaName, m.tableName)) =
        acc.map (fun m => (m.schemaName, m.tableName)) ++ ts ∧
      ∀ m ∈ ms, m ∈ acc ∨ (m.runId = rid ∧ counts m.schemaName m.tableName = .ok m.rowCount) := by
  induction ts with
  | nil =>
    intro acc pl0 ms pl h
    simp only [collect_counts] at h
    injection h with h12
    injection h12 with h1 h2
    subst h1
    exact ⟨by simp, fun m hm => Or.inl hm⟩
  | cons st rest ih =>
    intro acc pl0 ms pl h
    obtain ⟨s, t⟩ := st
    simp only [collect_counts] at h
    cases hc : counts s t with
    | error e => rw [hc] at h; simp at h
    | ok c =>
      rw [hc] at h
      simp only [] at h
      obtain ⟨h1, h2⟩ := ih _ _ _ _ h
      constructor
      · rw [h1]; simp
      · intro m hm
        rcases h2 m hm with hmem | hP
        · rcases List.mem_append.mp hmem with hmem2 | hmem2
          · exact Or.inl hmem2
          · have hm2 : m = ⟨rid, s, t, c⟩ := by simpa using hmem2
            subst hm2
            exact Or.inr ⟨rfl, by simpa using hc⟩
        · exact Or.inr hP

-- Concrete environments used by counterexamples and witnesses -------------

-- Five base tables in schema app; counting the third raises "boom".
def env5 : Env :=
  ⟨[⟨("app"), ("t1"), ("BASE TABLE")⟩, ⟨("app"), ("t2"), ("BASE TABLE")⟩,
    ⟨("app"), ("t3"), ("BASE TABLE")⟩, ⟨("app"), ("t4"), ("BASE TABLE")⟩,
    ⟨("app"), ("t5"), ("BASE TABLE")⟩],
   fun _ t => if t = ("t3") then .error ("boom") else .ok 7⟩

-- The spec scenario: app.orders with 10 rows, app.customers with 0 rows.
def env2 : Env :=
  ⟨[⟨("app"), ("orders"), ("BASE TABLE")⟩, ⟨("app"), ("customers"), ("BASE TABLE")⟩],
   fun _ t => if t = ("orders") then .ok 10 else .ok 0⟩

-- Empty store.
def db0 : DB := ⟨0, [], [], [], []⟩

/-- C2 counterexample: running the single-transaction variant (one.py main)
with an empty request on a five-target catalog whose third target raises a
collection error leaves zero Measurement Store rows (first half of the
claim), but NO run record exists afterwards at all -- the RUNNING header was
rolled back with the rest of the transaction and the follow-up
UPDATE .. FAILED matched zero rows -- so the run's final recorded status is
not FAILED, refuting the claim's second half. -/
theorem measurement_failure_counterexample :
    ((main_one env5 none none 0 (JsonVal.obj []) db0).1.meas = [] ∧
     (main_one env5 none none 0 (JsonVal.obj []) db0).2 = .err ("boom")) ∧
    ¬ ∃ r, r ∈ (main_one env5 none none 0 (JsonVal.obj []) db0).1.runs ∧
        r.status = ("FAILED") := by
  refine ⟨⟨rfl, rfl⟩, ?_⟩
  rintro ⟨r, hr, hst⟩
  rw [show (main_one env5 none none 0 (JsonVal.obj []) db0).1.runs = ([] : List RunRow)
      from rfl] at hr
  exact absurd hr (List.not_mem_nil r)

/-- C2 (amended): when measuring one of the resolved targets fails, the
Measurement Store holds zero rows for the run in every variant; the run's
final recorded status is FAILED (with the truncated message) only in the
split-transaction variant WORK/two.py, whose header committed separately,
while the single-transaction variants Works.py and one.py roll the header
back and leave no run record. -/
theorem measurement_failure_amended (env : Env) (today : Nat) (body : JsonVal) (db : DB)
    (excl : List String) (skips : List JsonVal) (e : String)
    (hval : validate_request body = .ok (excl, skips))
    (hne : resolveTargets env excl skips ≠ [])
    (hcol : collect_counts env.counts db.nextRunId (resolveTargets env excl skips) [] [] = .error e)
    (hfresh : ∀ r ∈ db.runs, r.runId ≠ db.nextRunId) :
    (main_two env none none none today body db).1.meas = db.meas ∧
    (main_two env none none none today body db).1.runs =
      db.runs ++ [⟨db.nextRunId, ("FAILED"), some (truncate4000 e), .arr skips,
                   .arr (excl.map JsonVal.str)⟩] ∧
    (main_two env none none none today body db).2 = .err e ∧
    main_works env none today body db = (db, .err e) ∧
    main_one env none none today body db = (db, .err e) := by
  have hT := main_two_collect_failure env today body db excl skips e hval hne hcol hfresh
  rw [hT]
  exact ⟨rfl, rfl, rfl,
         main_works_collect_failure env today body db excl skips e hval hne hcol,
         main_one_collect_failure env today body db excl skips e hval hne hcol hfresh⟩

theorem measurement_failure_amended_witness :
    (main_two env5 none none none 0 (JsonVal.obj []) db0).2 = .err ("boom") :=
  (measurement_failure_amended env5 0 (JsonVal.obj []) db0 [] [] ("boom")
      rfl (by decide) rfl (fun r hr => absurd hr (List.not_mem_nil r))).2.2.1

/-- C5: on every valid input whose run finishes SUCCEEDED (all resolved
targets measured without error), the Measurement Store rows carrying the new
run identifier are exactly, in order, the (schema, table) targets the
resolver produced, each with the count the collector returned, and the
caller receives the ok result. -/
theorem succeeded_measurements_exact (env : Env) (today : Nat) (body : JsonVal) (db : DB)
    (excl : List String) (skips : List JsonVal) (ms : List MeasRow) (pl : Payload)
    (hval : validate_request body = .ok (excl, skips))
    (hne : resolveTargets env excl skips ≠ [])
    (hcol : collect_counts env.counts db.nextRunId (resolveTargets env excl skips) [] [] = .ok (ms, pl))
    (hfresh : ∀ m ∈ db.meas, m.runId ≠ db.nextRunId) :
    (((main_works env none today body db).1.meas.filter
        (fun m => m.runId == db.nextRunId)).map (fun m => (m.schemaName, m.tableName)) =
      resolveTargets env excl skips) ∧
    (∀ m ∈ (main_works env none today body db).1.meas.filter
        (fun m => m.runId == db.nextRunId),
      env.counts m.schemaName m.tableName = .ok m.rowCount) ∧
    (main_works env none today body db).2 = .ok db.nextRunId today (payloadCount pl) := by
  have hM := main_works_success env today body db excl skips ms pl hval hne hcol
  obtain ⟨h1, h2⟩ := collect_counts_ok_spec env.counts db.nextRunId
      (resolveTargets env excl skips) [] [] ms pl hcol
  have h2' : ∀ m ∈ ms, m.runId = db.nextRunId ∧
      env.counts m.schemaName m.tableName = .ok m.rowCount := by
    intro m hm
    rcases h2 m hm with h | h
    · exact absurd h (List.not_mem_nil m)
    · exact h
  have hmeas : (main_works env none today body db).1.meas = db.meas ++ ms := by
    rw [hM]; simp [update_run_status]
  have hfilter : (db.meas ++ ms).filter (fun m => m.runId == db.nextRunId) = ms := by
    rw [List.filter_append]
    have hA : db.meas.filter (fun m => m.runId == db.nextRunId) = [] := by
      rw [List.filter_eq_nil_iff]
      intro a ha
      simp [hfresh a ha]
    have hB : ms.filter (fun m => m.runId == db.nextRunId) = ms := by
      rw [List.filter_eq_self]
      intro a ha
      simp [(h2' a ha).1]
    rw [hA, hB]
    simp
  refine ⟨?_, ?_, ?_⟩
  · rw [hmeas, hfilter]
    simpa using h1
  · intro m hm
    rw [hmeas, hfilter] at hm
    exact (h2' m hm).2
  · rw [hM]

theorem succeeded_measurements_exact_witness :
    (main_works env2 none 0 (JsonVal.obj []) db0).2 = .ok 0 0 2 :=
  (succeeded_measurements_exact env2 0 (JsonVal.obj []) db0 [] []
      [⟨0, ("app"), ("orders"), 10⟩, ⟨0, ("app"), ("customers"), 0⟩]
      [(("app"), [(("orders"), 10), (("customers"), 0)])]
      rfl (by decide) rfl (fun m hm => absurd hm (List.not_mem_nil m))).2.2

/-- C9: in the WORK/one.py variant the db_conn context manager swallows the
final commit exception, so when validation, discovery, counting and every
write succeed but the commit itself raises, the caller still receives the
success result (status ok with the run id and table count) even though none
of the run's measurements, snapshots, or the SUCCEEDED status were
persisted: the store is exactly its pre-run state. -/
theorem commit_failure_suppressed (env : Env) (today : Nat) (body : JsonVal) (db : DB)
    (excl : List String) (skips : List JsonVal) (ms : List MeasRow) (pl : Payload) (msg : String)
    (hval : validate_request body = .ok (excl, skips))
    (hne : resolveTargets env excl skips ≠ [])
    (hcol : collect_counts env.counts db.nextRunId (resolveTargets env excl skips) [] [] = .ok (ms, pl)) :
    main_one env (some msg) none today body db =
      (db, .ok db.nextRunId today (payloadCount pl)) := by
  have h1 := run_work_ok_eq env write_daily_snapshot excl skips db.nextRunId today
    { db with nextRunId := db.nextRunId + 1,
              runs := db.runs ++ [⟨db.nextRunId, ("RUNNING"), none, .arr skips,
                                  .arr (excl.map JsonVal.str)⟩] } ms pl hne hcol
  simp [main_one, insert_run_header, hval, h1]

theorem commit_failure_suppressed_witness :
    main_one env2 (some ("network error")) none 0 (JsonVal.obj []) db0 =
      (db0, Result.ok 0 0 2) :=
  commit_failure_suppressed env2 0 (JsonVal.obj []) db0 [] []
    [⟨0, ("app"), ("orders"), 10⟩, ⟨0, ("app"), ("customers"), 0⟩]
    [(("app"), [(("orders"), 10), (("customers"), 0)])] ("network error")
    rfl (by decide) rfl

-- C6: validation failures --------------------------------------------------

def bodyBadExclude : JsonVal := .obj [(("exclude"), .arr [.str ("sales")])]

/-- C6 counterexample: a malformed exclude entry ("sales", no dot) makes
one.py fail validation with an error naming the entry, BUT the except path
then inserts a best-effort FAILED run header for audit, so a run record IS
created, refuting the claim that no run record is created. -/
theorem validation_failed_header_counterexample :
    (main_one env5 none none 0 bodyBadExclude db0).2 =
      .err ("exclude items must be schema.table: sales") ∧
    (main_one env5 none none 0 bodyBadExclude db0).1.runs =
      [⟨0, ("FAILED"), none, .arr [], .arr [.str ("sales")]⟩] := ⟨rfl, rfl⟩

def bodyBadList : JsonVal :=
  .obj [(("mode"), .str ("list")), (("tables"), .arr [.str ("sales")])]

/-- C6 (amended): a malformed qualified name fails validation with an error
naming the offending entry before any target resolution or measurement; the
google_iternary variant returns the error with the store untouched and no
record of any kind, while the WORK variants additionally insert a
best-effort FAILED run header for audit (counterexample above). -/
theorem validation_error_amended (env : Env) (isoParse : String → Option Nat)
    (today : Nat) (db : List GIDailyRow) (dbw : DB) (body : JsonVal) (e : String)
    (hgi : validate_request_gi isoParse today body = .error e) :
    main_gi_two env isoParse today body db = (db, .err today e) ∧
    (∀ fq rest, containsDot fq = false →
      validate_request_gi isoParse today
        (.obj [(("mode"), .str ("list")), (("tables"), .arr (JsonVal.str fq :: rest))]) =
        .error (("table must be schema.table: ") ++ fq)) ∧
    (∀ body2 e2, validate_request body2 = .error e2 →
      (main_one env none none today body2 dbw).2 = .err e2 ∧
      (main_one env none none today body2 dbw).1.runs =
        dbw.runs ++ [⟨dbw.nextRunId, ("FAILED"), none,
                      bodyRawField body2 ("skipSchemas"), bodyRawField body2 ("exclude")⟩]) := by
  refine ⟨by simp [main_gi_two, hgi], fun fq rest hfq => ?_, fun body2 e2 h2 => ?_⟩
  · simp [validate_request_gi, dictGetD, dictGet, pyIter, jsonTruthy, collectTargets, hfq]
  · exact ⟨by simp [main_one, h2], by simp [main_one, h2, insert_run_header]⟩

theorem validation_error_amended_witness :
    main_gi_two env5 (fun _ => none) 0 bodyBadList [] =
      ([], GIResult.err 0 ("table must be schema.table: sales")) :=
  (validation_error_amended env5 (fun _ => none) 0 [] db0 bodyBadList
      ("table must be schema.table: sales") rfl).1

-- C7: system-schema exclusion ----------------------------------------------

/-- C7 counterexample: in the NF_DataEngineering variant, explicit-list mode
resolves a system-schema table: list_from_payload applies only the
caller-supplied exclusion set, so with no exclusions the qualified name
pg_catalog.pg_class is returned as a target although pg_catalog is a
reserved system schema. -/
theorem system_schema_list_counterexample :
    list_from_payload [("pg_catalog.pg_class")] [] =
      .ok [(("pg_catalog"), ("pg_class"))] ∧
    ("pg_catalog") ∈ SYSTEM_SCHEMAS := ⟨rfl, by decide⟩

theorem sqlSystemSchema_iff (s : String) : sqlSystemSchema s = true ↔ s ∈ SYSTEM_SCHEMAS := by
  simp [sqlSystemSchema, SYSTEM_SCHEMAS]
  tauto

theorem list_all_tables_notMem (catalog : List CatalogRow) (excl : String → Bool)
    (s t : String) (h : (s, t) ∈ list_all_tables catalog excl) :
    sqlSystemSchema s = false ∧ excl s = false := by
  simp only [list_all_tables, List.mem_filter, List.mem_map] at h
  obtain ⟨⟨r, hr, hrt⟩, hex⟩ := h
  have hg := hr.2
  have hs : r.schemaName = s := by
    have := congrArg Prod.fst hrt
    simpa using this
  simp only [Bool.and_eq_true] at hg
  constructor
  · rw [← hs]
    simpa using hg.2
  · simpa using hex

/-- C7 (amended): full-discovery mode never returns a table from a reserved
system schema -- the SQL filter excludes them unconditionally, and the WORK
and google_iternary variants union the caller exclusions on top -- but in
the NF_DataEngineering variant the explicit-list resolver applies only the
caller-supplied exclusion set, so a system-schema table in the caller's list
is resolved (counterexample above). -/
theorem system_schema_exclusion_amended (catalog : List CatalogRow) (excl : List String)
    (skips : List JsonVal) (s t : String) :
    ((s, t) ∈ list_all_user_tables catalog excl → s ∉ SYSTEM_SCHEMAS ∧ s ∉ excl) ∧
    ((s, t) ∈ list_all_tables catalog (schemaExcluded skips) → s ∉ SYSTEM_SCHEMAS) ∧
    (∀ tables out, list_from_payload tables excl = .ok out → (s, t) ∈ out → s ∉ excl) := by
  refine ⟨fun h => ?_, fun h => ?_, fun tables => ?_⟩
  · obtain ⟨h1, h2⟩ := list_all_tables_notMem catalog _ s t h
    refine ⟨fun hmem => ?_, fun hmem => ?_⟩
    · rw [(sqlSystemSchema_iff s).mpr hmem] at h1
      exact Bool.noConfusion h1
    · simp [hmem] at h2
  · obtain ⟨h1, _⟩ := list_all_tables_notMem catalog _ s t h
    intro hmem
    rw [(sqlSystemSchema_iff s).mpr hmem] at h1
    exact Bool.noConfusion h1
  · induction tables with
    | nil =>
      intro out h hm
      simp only [list_from_payload] at h
      injection h with h1
      rw [← h1] at hm
      exact absurd hm (List.not_mem_nil _)
    | cons fq rest ih =>
      intro out h hm
      simp only [list_from_payload] at h
      by_cases hd : containsDot fq
      · rw [if_pos hd] at h
        cases hrec : list_from_payload rest excl with
        | error e2 => rw [hrec] at h; simp at h
        | ok out2 =>
          rw [hrec] at h
          simp only [] at h
          injection h with h1
          by_cases hex : (pySplit1 fq).1 ∈ excl
          · rw [if_pos hex] at h1
            rw [← h1] at hm
            exact ih out2 hrec hm
          · rw [if_neg hex] at h1
            rw [← h1] at hm
            rcases List.mem_cons.mp hm with h3 | h3
            · have hs : s = (pySplit1 fq).1 := by simpa using congrArg Prod.fst h3
              exact hs ▸ hex
            · exact ih out2 hrec h3
      · rw [if_neg hd] at h
        simp at h

theorem system_schema_exclusion_amended_witness :
    ("app") ∉ SYSTEM_SCHEMAS ∧ ("app") ∉ ([] : List String) :=
  (system_schema_exclusion_amended env5.catalog [] [] ("app") ("t1")).1 (by decide)

-- C8: error-message surfacing ----------------------------------------------

/-- C8 counterexample: in the fully atomic Works.py variant a collection
failure rolls back the run header itself, so no FAILED run record exists to
receive the (truncated) error message -- the finalize half of the claim
fails -- and the caller receives the message via the error result only. -/
theorem error_truncation_counterexample :
    main_works env5 none 0 (JsonVal.obj []) db0 = (db0, .err ("boom")) ∧
    (main_works env5 none 0 (JsonVal.obj []) db0).1.runs = [] := ⟨rfl, rfl⟩

/-- C8 (amended): when a step fails after the run header was separately
committed (split-transaction variant WORK/two.py), the FAILED run record
stores the originating message truncated to 4000 characters while the
caller's error result carries the full untruncated message; in the
single-transaction variants (Works.py, one.py) the header is rolled back and
the message is surfaced to the caller only, with no FAILED record. -/
theorem error_truncation_amended (env : Env) (today : Nat) (body : JsonVal) (db : DB)
    (excl : List String) (skips : List JsonVal) (e : String)
    (hval : validate_request body = .ok (excl, skips))
    (hne : resolveTargets env excl skips ≠ [])
    (hcol : collect_counts env.counts db.nextRunId (resolveTargets env excl skips) [] [] = .error e)
    (hfresh : ∀ r ∈ db.runs, r.runId ≠ db.nextRunId) :
    (∃ r, r ∈ (main_two env none none none today body db).1.runs ∧
       r.runId = db.nextRunId ∧ r.status = ("FAILED") ∧
       r.errorMessage = some (truncate4000 e)) ∧
    (main_two env none none none today body db).2 = .err e ∧
    main_works env none today body db = (db, .err e) ∧
    main_one env none none today body db = (db, .err e) := by
  have hT := main_two_collect_failure env today body db excl skips e hval hne hcol hfresh
  rw [hT]
  refine ⟨⟨⟨db.nextRunId, ("FAILED"), some (truncate4000 e), .arr skips,
            .arr (excl.map JsonVal.str)⟩, ?_, rfl, rfl, rfl⟩, rfl,
          main_works_collect_failure env today body db excl skips e hval hne hcol,
          main_one_collect_failure env today body db excl skips e hval hne hcol hfresh⟩
  simp

theorem error_truncation_amended_witness :
    main_works env5 none 0 (JsonVal.obj []) db0 = (db0, Result.err ("boom")) :=
  (error_truncation_amended env5 0 (JsonVal.obj []) db0 [] [] ("boom")
      rfl (by decide) rfl (fun r hr => absurd hr (List.not_mem_nil r))).2.2.1
